import Mathlib

/-!
Shallow embedding of `pkg/agent/auth/keycloakauthn.v2.go` (Tornjak Keycloak
bearer-token authenticator) together with spec-level models of the external
collaborators the file calls into (the `keyfunc` JWKS key-set cache, JWT
parsing/verification, OIDC discovery, and the `UserInfo`/`KeycloakClaim`
types declared elsewhere in the repository).

Durations are modelled in seconds as `Nat`; timestamps are `Nat` seconds.
Key material is abstracted as a `Nat` identifier: a token's signature is
valid under a key exactly when the resolved key material equals the
material the token was signed with.
-/

/-- A character is whitespace in the sense of Go's `unicode.IsSpace`
(used by `strings.Fields`): ASCII space characters, NEL, NBSP, and the
Unicode White_Space code points. -/
def goIsSpace (c : Char) : Bool :=
  let n := c.toNat
  n = 0x20 || (0x9 ≤ n && n ≤ 0xD) || n = 0x85 || n = 0xA0 ||
  n = 0x1680 || (0x2000 ≤ n && n ≤ 0x200A) || n = 0x2028 || n = 0x2029 ||
  n = 0x202F || n = 0x205F || n = 0x3000

/-- Scanner for `goFields`: `cur` holds the characters of the field being
read, in reverse. -/
def goFieldsAux : List Char → List Char → List String
  | [], [] => []
  | [], cur => [String.mk cur.reverse]
  | c :: rest, cur =>
    if goIsSpace c then
      match cur with
      | [] => goFieldsAux rest []
      | _ => String.mk cur.reverse :: goFieldsAux rest []
    else
      goFieldsAux rest (c :: cur)

/-- Go `strings.Fields`: split around each maximal run of whitespace,
dropping empty fields (so leading, trailing, and repeated separators are
ignored). -/
def goFields (s : String) : List String :=
  goFieldsAux s.data []

/-- An incoming HTTP request, reduced to what the authenticator can touch:
its header list and its body. `net/http` stores headers under canonical
names; the only name this code ever asks for, `Authorization`, is already
canonical, so the lookup is plain association-list lookup on the name. -/
structure HTTPRequest where
  headers : List (String × String)
  body : String
  deriving Repr, DecidableEq

/-- Go `r.Header.Get(name)`: first value for the name, `""` if absent. -/
def headerGet (r : HTTPRequest) (name : String) : String :=
  (List.lookup name r.headers).getD ""

/-- Failure modes of JWT parse-and-verify (`jwt.ParseWithClaims`). -/
inductive VerifyError where
  | malformedToken
  | unknownKey
  | signatureInvalid
  | tokenExpired
  | audienceMismatch
  deriving Repr, DecidableEq

/-- Errors produced by the authenticator, one constructor per
`errors.Errorf`/`errors.New` site in the source, carrying the data the
format string interpolates. -/
inductive AuthError where
  /-- message "Authorization header missing. Please obtain access token here: %s" -/
  | authHeaderMissing (redirectURL : String)
  /-- message "Expected bearer token, got %s" -/
  | expectedBearerToken (header : String)
  /-- message "Error parsing token: %s" wrapping the verification failure -/
  | errorParsingToken (e : VerifyError)
  /-- message "Token invalid" -/
  | tokenInvalid
  deriving Repr, DecidableEq

/-- The spec's `MissingOrMalformedCredential` category: the two errors
`getToken` can produce, before any token parsing happens. -/
def AuthError.isMissingOrMalformedCredential : AuthError → Bool
  | .authHeaderMissing _ => true
  | .expectedBearerToken _ => true
  | _ => false

/-- The body of `getToken` acting on the Authorization header value: an
empty header is an error carrying the redirect hint; otherwise the
header must split into exactly two whitespace-separated fields with the
first field literally `Bearer`, and the second field is the token. -/
def getTokenFromHeader (auth_header : String) (redirectURL : String) :
    Except AuthError String :=
  if auth_header = "" then
    .error (.authHeaderMissing redirectURL)
  else
    let auth_fields := goFields auth_header
    if h2 : auth_fields.length = 2 then
      if auth_fields.head? = some "Bearer" then
        .ok (auth_fields.get ⟨1, by omega⟩)
      else
        .error (.expectedBearerToken auth_header)
    else
      .error (.expectedBearerToken auth_header)

/-- `getToken(r, redirectURL)`: read the `Authorization` header from the
request and extract the bearer token from it. -/
def getToken (r : HTTPRequest) (redirectURL : String) : Except AuthError String :=
  getTokenFromHeader (headerGet r "Authorization") redirectURL

/-- `StaticRoleMappings`: the process-wide provider-role → Tornjak-role
table, exactly the two entries of the source. -/
def StaticRoleMappings : List (String × String) :=
  [("tornjak-viewer-realm-role", "viewer"),
   ("tornjak-admin-realm-role", "admin")]

/-- The loop body of `TranslateToTornjakRoles`: Go appends each mapped
role to an accumulator slice, skipping roles absent from the table. -/
def translateLoop (acc : List String) : List String → List String
  | [] => acc
  | role :: rest =>
    match List.lookup role StaticRoleMappings with
    | some tornjakRole => translateLoop (acc ++ [tornjakRole]) rest
    | none => translateLoop acc rest

/-- `TranslateToTornjakRoles(roles)`: map provider roles through
`StaticRoleMappings`, dropping unknown entries. (A method on
`KeycloakAuthenticator` in Go, but its receiver is unused.) -/
def TranslateToTornjakRoles (roles : List String) : List String :=
  translateLoop [] roles

/-- Modelled from the spec: `UserInfo` (declared elsewhere in the
repository) — the authenticator's output, an ordered sequence of
normalized role names. -/
structure UserInfo where
  Roles : List String
  deriving Repr, DecidableEq

/-- Modelled from the spec: the decoded content of a well-formed JWT
(`ParsedToken`): header key ID and algorithm-level signing key material,
expiry, audience list, and the provider-specific realm role names
(`KeycloakClaim.RealmAccess.Roles`, declared elsewhere in the
repository). A signature verifies under resolved key material `k` exactly
when `k = sigKey`. -/
structure TokenData where
  keyID : String
  sigKey : Nat
  exp : Nat
  aud : List String
  realmRoles : List String
  deriving Repr, DecidableEq

/-- Modelled from the spec: the parsed-token value returned by
`jwt.ParseWithClaims`, whose `Valid` flag the source re-checks. -/
structure ParsedJWT where
  claims : TokenData
  valid : Bool
  deriving Repr, DecidableEq

/-- Modelled from the spec: `jwt.ParseWithClaims(token, claims, keyfn,
jwt.WithAudience(aud))` — decode the compact token string, resolve the
verification key by the header's key ID, verify the signature, require
`exp` in the future and the audience claim to contain the expected
audience; on success the library marks the token valid. `decode` stands
for base64/JSON decoding of the compact form; `keyfn` is the key-lookup
function the caller passes (`a.jwks.Keyfunc`). -/
def parseWithClaims (decode : String → Option TokenData)
    (keyfn : String → Option Nat) (audience : String) (now : Nat)
    (tokenStr : String) : Except VerifyError ParsedJWT :=
  match decode tokenStr with
  | none => .error .malformedToken
  | some t =>
    match keyfn t.keyID with
    | none => .error .unknownKey
    | some k =>
      if t.sigKey ≠ k then .error .signatureInvalid
      else if t.exp ≤ now then .error .tokenExpired
      else if ¬ t.aud.contains audience then .error .audienceMismatch
      else .ok { claims := t, valid := true }

/-- Modelled from the spec: the refresh options the source passes to
`keyfunc.Get` (`keyfunc.Options`); durations in seconds. -/
structure KeyfuncOptions where
  refreshInterval : Nat
  refreshRateLimit : Nat
  refreshTimeout : Nat
  refreshUnknownKID : Bool
  deriving Repr, DecidableEq

/-- Modelled from the spec: a `keyfunc.JWKS` key-set cache value — the
current signing-key set (key ID → key material) plus, in polling mode,
the refresh options it was constructed with (`none` for a static JSON
set, which never refreshes). -/
structure JWKS where
  keys : List (String × Nat)
  options : Option KeyfuncOptions
  deriving Repr, DecidableEq

/-- Modelled from the spec: `jwks.Keyfunc` as used during one request —
look the key ID up in the current signing-key set. -/
def JWKS.keyfunc (j : JWKS) (kid : String) : Option Nat :=
  List.lookup kid j.keys

/-- Modelled from the spec: `keyfunc.Get(url, opts)` — fetch the JWKS
document from the URL and construct a polling cache carrying `opts`;
fails when the initial fetch fails. -/
def keyfuncGet (fetch : String → Option (List (String × Nat)))
    (url : String) (opts : KeyfuncOptions) : Except String JWKS :=
  match fetch url with
  | none => .error ("could not fetch JWKS from " ++ url)
  | some ks => .ok { keys := ks, options := some opts }

/-- Modelled from the spec: `keyfunc.NewJSON(bytes)` — parse a literal
JWKS JSON document into a static key set; fails on malformed JSON. -/
def keyfuncNewJSON (parseJSON : String → Option (List (String × Nat)))
    (doc : String) : Except String JWKS :=
  match parseJSON doc with
  | none => .error ("could not parse JWKS JSON " ++ doc)
  | some ks => .ok { keys := ks, options := none }

/-- `getJWKeyFunc(httpjwks, jwksInfo)`: in polling mode call
`keyfunc.Get` with the hard-coded options (refresh interval one hour,
refresh rate limit five minutes, refresh timeout ten seconds, refresh on
unknown key ID); in static mode call `keyfunc.NewJSON` on the literal
document. Errors are wrapped with a `Could not create Keyfunc` message. -/
def getJWKeyFunc (fetch : String → Option (List (String × Nat)))
    (parseJSON : String → Option (List (String × Nat)))
    (httpjwks : Bool) (jwksInfo : String) : Except String JWKS :=
  if httpjwks then
    let opts : KeyfuncOptions :=
      { refreshInterval := 3600
        refreshRateLimit := 300
        refreshTimeout := 10
        refreshUnknownKID := true }
    match keyfuncGet fetch jwksInfo opts with
    | .error e => .error ("Could not create Keyfunc for url " ++ jwksInfo ++ ": " ++ e)
    | .ok jwks => .ok jwks
  else
    match keyfuncNewJSON parseJSON jwksInfo with
    | .error e => .error ("Could not create Keyfunc for json " ++ jwksInfo ++ ": " ++ e)
    | .ok jwks => .ok jwks

/-- The authenticator value built at startup. -/
structure KeycloakAuthenticator where
  jwks : JWKS
  jwksURL : String
  audience : String
  deriving Repr, DecidableEq

/-- `NewKeycloakAuthenticator(httpjwks, issuerURL, audience)`: run OIDC
discovery for the issuer to learn the JWKS URL, then build the key
source via `getJWKeyFunc`; either failure returns `(nil, err)`.
`discover` models the external OIDC discovery client: issuer URL to JWKS
URI, or an error. The Go pair return `(*KeycloakAuthenticator, error)`
is kept as a pair of options. -/
def NewKeycloakAuthenticator (discover : String → Except String String)
    (fetch : String → Option (List (String × Nat)))
    (parseJSON : String → Option (List (String × Nat)))
    (httpjwks : Bool) (issuerURL : String) (audience : String) :
    Option KeycloakAuthenticator × Option String :=
  match discover issuerURL with
  | .error e =>
    (none, some ("Could not set up OIDC Discovery client with issuer = " ++
      issuerURL ++ ": " ++ e))
  | .ok jwksURL =>
    match getJWKeyFunc fetch parseJSON httpjwks jwksURL with
    | .error e => (none, some e)
    | .ok jwks =>
      (some { jwks := jwks, audience := audience, jwksURL := jwksURL }, none)

/-- `AuthenticateRequest(r)`: extract the bearer token, parse and verify
it against the key set with the configured audience, re-check the
library's validity flag, translate realm roles, and return the user
info. The Go pair return `(*UserInfo, error)` is kept as a pair of
options. `decode` and `now` make the ambient JWT decoding and clock of
`jwt.ParseWithClaims` explicit. -/
def AuthenticateRequest (decode : String → Option TokenData) (now : Nat)
    (a : KeycloakAuthenticator) (r : HTTPRequest) :
    Option UserInfo × Option AuthError :=
  match getToken r a.jwksURL with
  | .error e => (none, some e)
  | .ok token =>
    match parseWithClaims decode a.jwks.keyfunc a.audience now token with
    | .error e => (none, some (.errorParsingToken e))
    | .ok jwt_token =>
      if ¬ jwt_token.valid then (none, some .tokenInvalid)
      else (some { Roles := TranslateToTornjakRoles jwt_token.claims.realmRoles }, none)

/-- Modelled from the spec: the external configuration record recognized
by the deployment, with the documented duration defaults (seconds):
refresh interval one hour, rate-limit interval five minutes, refresh
timeout ten seconds. -/
structure TornjakConfig where
  useHTTPKeySource : Bool
  issuerURL : String
  audience : String
  refreshInterval : Nat := 3600
  rateLimitInterval : Nat := 300
  refreshTimeout : Nat := 10
  deriving Repr, DecidableEq

/-- Modelled from the spec: the Key Set Cache's mutable state
(`SigningKeySet` plus `RefreshState`): the current key set, the time of
the last refresh attempt, and the configured rate-limit interval. -/
structure CacheState where
  keys : List (String × Nat)
  lastAttempt : Nat
  rateLimit : Nat
  deriving Repr, DecidableEq

/-- Modelled from the spec: `Lookup(keyID)` at time `now` against a Key
Source whose current document is `source`. A hit returns the cached key.
On a miss, if at least the rate-limit interval has elapsed since the
last refresh attempt, refresh the full set from the Key Source and retry
the lookup once against the refreshed set; otherwise (or if the retry
still misses) fail with `UnknownKeyError` (`Except.error ()`). Returns
the lookup result, the successor cache state, and whether this lookup
issued a refresh attempt. -/
def cacheLookup (source : List (String × Nat)) (st : CacheState)
    (now : Nat) (kid : String) : Except Unit Nat × CacheState × Bool :=
  match List.lookup kid st.keys with
  | some k => (.ok k, st, false)
  | none =>
    if st.lastAttempt + st.rateLimit ≤ now then
      let st' : CacheState :=
        { keys := source, lastAttempt := now, rateLimit := st.rateLimit }
      match List.lookup kid source with
      | some k => (.ok k, st', true)
      | none => (.error (), st', true)
    else
      (.error (), st, false)

/-- Run a sequence of `(arrival time, key ID)` lookups through the cache
in order, returning the final state, the number of refresh attempts
issued, and the per-lookup results. -/
def runLookups (source : List (String × Nat)) (st : CacheState) :
    List (Nat × String) → CacheState × Nat × List (Except Unit Nat)
  | [] => (st, 0, [])
  | (t, kid) :: rest =>
    let step := cacheLookup source st t kid
    let tail := runLookups source step.2.1 rest
    (tail.1, (if step.2.2 then 1 else 0) + tail.2.1, step.1 :: tail.2.2)

/-! ## Helper lemmas -/

/-- The translation loop appends the image of the remaining roles under
the static table to its accumulator. -/
theorem translateLoop_eq (acc : List String) (l : List String) :
    translateLoop acc l =
      acc ++ l.filterMap (fun r => List.lookup r StaticRoleMappings) := by
  induction l generalizing acc with
  | nil => simp [translateLoop]
  | cons r rest ih =>
    cases h : List.lookup r StaticRoleMappings with
    | none => simp [translateLoop, h, ih]
    | some t => simp [translateLoop, h, ih]

/-- `jwt.ParseWithClaims` marks every token it returns without error as
valid, so the source's dead `!jwt_token.Valid` branch never fires. -/
theorem parseWithClaims_ok_valid (decode : String → Option TokenData)
    (keyfn : String → Option Nat) (audience : String) (now : Nat)
    (tokenStr : String) (jt : ParsedJWT)
    (h : parseWithClaims decode keyfn audience now tokenStr = .ok jt) :
    jt.valid = true := by
  unfold parseWithClaims at h
  repeat' split at h
  all_goals simp_all
  exact (congrArg ParsedJWT.valid h.symm)

/-! ## Claim theorems -/

/-- C3: `TranslateToTornjakRoles` returns exactly the in-order images
under `StaticRoleMappings` of the input roles present in the table,
silently dropping unknown entries and performing no deduplication; in
particular it maps `[]` to `[]`, the viewer realm role to `["viewer"]`,
and the admin realm role followed by an unknown role to `["admin"]`. -/
theorem translateToTornjakRoles_filterMap :
    (∀ roles : List String, TranslateToTornjakRoles roles =
      roles.filterMap (fun r => List.lookup r StaticRoleMappings)) ∧
    TranslateToTornjakRoles [] = [] ∧
    TranslateToTornjakRoles ["tornjak-viewer-realm-role"] = ["viewer"] ∧
    TranslateToTornjakRoles ["tornjak-admin-realm-role", "unknown-role"] = ["admin"] ∧
    TranslateToTornjakRoles ["tornjak-admin-realm-role", "tornjak-admin-realm-role"] =
      ["admin", "admin"] := by
  refine ⟨fun roles => ?_, by decide, by decide, by decide, by decide⟩
  simpa using translateLoop_eq [] roles

/-- C9: any Authorization header whose whitespace-delimited fields
(leading, trailing, and repeated separators ignored) are exactly
`["Bearer", t]` is accepted by `getToken`, which returns `t`. -/
theorem getToken_accepts_two_bearer_fields (r : HTTPRequest) (url t : String)
    (hf : goFields (headerGet r "Authorization") = ["Bearer", t]) :
    getToken r url = .ok t := by
  have hne : headerGet r "Authorization" ≠ "" := by
    intro h0
    rw [h0] at hf
    simp [goFields, goFieldsAux] at hf
  simp [getToken, getTokenFromHeader, hne, hf]

/-- Closed instance of C9: the header value with leading spaces, a tab
separator, and trailing spaces is accepted and yields the token. -/
theorem getToken_accepts_two_bearer_fields_witness :
    goFields "  Bearer\ttok  " = ["Bearer", "tok"] ∧
    getToken ⟨[("Authorization", "  Bearer\ttok  ")], "body"⟩ "https://jwks" = .ok "tok" :=
  ⟨by decide,
   getToken_accepts_two_bearer_fields ⟨[("Authorization", "  Bearer\ttok  ")], "body"⟩
     "https://jwks" "tok" (by decide)⟩

/-- C2: whenever the Authorization header is empty or does not split into
exactly two whitespace-separated fields with the first field literally
`Bearer`, `AuthenticateRequest` fails with a MissingOrMalformedCredential
error produced by `getToken`, independently of the JWT decoder, the
clock, and the key set (so no token parsing or signature verification is
ever consulted); when the header is empty the error carries the
redirect-URL hint for obtaining a token. -/
theorem malformed_auth_header_rejected (a : KeycloakAuthenticator) (r : HTTPRequest)
    (hbad : ¬ ((goFields (headerGet r "Authorization")).length = 2 ∧
               (goFields (headerGet r "Authorization")).head? = some "Bearer")) :
    ∃ e : AuthError,
      e.isMissingOrMalformedCredential = true ∧
      getToken r a.jwksURL = .error e ∧
      (∀ decode now, AuthenticateRequest decode now a r = (none, some e)) ∧
      (headerGet r "Authorization" = "" → e = .authHeaderMissing a.jwksURL) := by
  by_cases h0 : headerGet r "Authorization" = ""
  · refine ⟨.authHeaderMissing a.jwksURL, rfl, ?_, ?_, fun _ => rfl⟩
    · simp [getToken, getTokenFromHeader, h0]
    · intro decode now
      simp [AuthenticateRequest, getToken, getTokenFromHeader, h0]
  · refine ⟨.expectedBearerToken (headerGet r "Authorization"), rfl, ?_, ?_,
      fun hc => absurd hc h0⟩
    · have hg : getToken r a.jwksURL =
          .error (.expectedBearerToken (headerGet r "Authorization")) := by
        simp only [getToken, getTokenFromHeader]
        rw [if_neg h0]
        split
        · rw [if_neg]
          intro hh
          exact hbad ⟨by assumption, hh⟩
        · rfl
      exact hg
    · intro decode now
      have hg : getToken r a.jwksURL =
          .error (.expectedBearerToken (headerGet r "Authorization")) := by
        simp only [getToken, getTokenFromHeader]
        rw [if_neg h0]
        split
        · rw [if_neg]
          intro hh
          exact hbad ⟨by assumption, hh⟩
        · rfl
      simp [AuthenticateRequest, hg]

/-- Closed instance of C2: the header "Basic abc" is rejected with a
MissingOrMalformedCredential error before verification. -/
theorem malformed_auth_header_rejected_witness :
    ∃ e : AuthError,
      e.isMissingOrMalformedCredential = true ∧
      getToken ⟨[("Authorization", "Basic abc")], ""⟩
        (KeycloakAuthenticator.mk ⟨[], none⟩ "https://jwks" "aud").jwksURL = .error e ∧
      (∀ decode now, AuthenticateRequest decode now
        (KeycloakAuthenticator.mk ⟨[], none⟩ "https://jwks" "aud")
        ⟨[("Authorization", "Basic abc")], ""⟩ = (none, some e)) ∧
      (headerGet ⟨[("Authorization", "Basic abc")], ""⟩ "Authorization" = "" →
        e = .authHeaderMissing "https://jwks") :=
  malformed_auth_header_rejected (KeycloakAuthenticator.mk ⟨[], none⟩ "https://jwks" "aud")
    ⟨[("Authorization", "Basic abc")], ""⟩ (by decide)

/-- C6: `AuthenticateRequest` consumes only the Authorization header:
two requests agreeing on that header value produce the same outcome
under the same authenticator state, decoder, and clock, whatever their
other headers and bodies are. -/
theorem authenticateRequest_reads_only_authorization
    (decode : String → Option TokenData) (now : Nat) (a : KeycloakAuthenticator)
    (r1 r2 : HTTPRequest)
    (h : headerGet r1 "Authorization" = headerGet r2 "Authorization") :
    AuthenticateRequest decode now a r1 = AuthenticateRequest decode now a r2 := by
  have hg : getToken r1 a.jwksURL = getToken r2 a.jwksURL := by
    unfold getToken
    rw [h]
  simp only [AuthenticateRequest, hg]

/-- Closed instance of C6: two requests with the same Authorization value
but different extra headers and bodies authenticate identically. -/
theorem authenticateRequest_reads_only_authorization_witness :
    AuthenticateRequest (fun _ => none) 0
      (KeycloakAuthenticator.mk ⟨[("kid", 1)], none⟩ "https://jwks" "aud")
      ⟨[("Authorization", "Bearer x"), ("X-Other", "1")], "body1"⟩ =
    AuthenticateRequest (fun _ => none) 0
      (KeycloakAuthenticator.mk ⟨[("kid", 1)], none⟩ "https://jwks" "aud")
      ⟨[("Authorization", "Bearer x")], "body2"⟩ :=
  authenticateRequest_reads_only_authorization (fun _ => none) 0
    (KeycloakAuthenticator.mk ⟨[("kid", 1)], none⟩ "https://jwks" "aud")
    ⟨[("Authorization", "Bearer x"), ("X-Other", "1")], "body1"⟩
    ⟨[("Authorization", "Bearer x")], "body2"⟩ (by decide)

/-- C5: `AuthenticateRequest` composes token verification and role
translation: a `getToken` failure is returned verbatim; a
parse-and-verify failure is returned wrapped only in the source's
"Error parsing token" message; a UserInfo is returned exactly when
verification fully succeeds, and a UserInfo and an error are never
returned together. -/
theorem authenticateRequest_error_propagation
    (decode : String → Option TokenData) (now : Nat) (a : KeycloakAuthenticator)
    (r : HTTPRequest) :
    ((AuthenticateRequest decode now a r).1.isSome ↔
      (AuthenticateRequest decode now a r).2 = none) ∧
    (∀ e, getToken r a.jwksURL = .error e →
      AuthenticateRequest decode now a r = (none, some e)) ∧
    (∀ tok e, getToken r a.jwksURL = .ok tok →
      parseWithClaims decode a.jwks.keyfunc a.audience now tok = .error e →
      AuthenticateRequest decode now a r = (none, some (.errorParsingToken e))) ∧
    (∀ tok jt, getToken r a.jwksURL = .ok tok →
      parseWithClaims decode a.jwks.keyfunc a.audience now tok = .ok jt →
      AuthenticateRequest decode now a r =
        (some { Roles := TranslateToTornjakRoles jt.claims.realmRoles }, none)) := by
  refine ⟨?_, ?_, ?_, ?_⟩
  · cases hgt : getToken r a.jwksURL with
    | error e => simp [AuthenticateRequest, hgt]
    | ok tok =>
      cases hp : parseWithClaims decode a.jwks.keyfunc a.audience now tok with
      | error e => simp [AuthenticateRequest, hgt, hp]
      | ok jt =>
        have hv := parseWithClaims_ok_valid decode a.jwks.keyfunc a.audience now tok jt hp
        simp [AuthenticateRequest, hgt, hp, hv]
  · intro e he
    simp [AuthenticateRequest, he]
  · intro tok e h1 h2
    simp [AuthenticateRequest, h1, h2]
  · intro tok jt h1 h2
    have hv := parseWithClaims_ok_valid decode a.jwks.keyfunc a.audience now tok jt h2
    simp [AuthenticateRequest, h1, h2, hv]

/-- Closed instance of C5: a missing Authorization header is returned
verbatim as the outcome, with no UserInfo. -/
theorem authenticateRequest_error_propagation_witness :
    AuthenticateRequest (fun _ => none) 0
      (KeycloakAuthenticator.mk ⟨[], none⟩ "https://jwks" "aud") ⟨[], ""⟩ =
      (none, some (.authHeaderMissing "https://jwks")) :=
  (authenticateRequest_error_propagation (fun _ => none) 0
    (KeycloakAuthenticator.mk ⟨[], none⟩ "https://jwks" "aud") ⟨[], ""⟩).2.1
    (.authHeaderMissing "https://jwks") (by rfl)

/-- C4: a token whose `exp` is not in the future at verification time,
or whose audience claim does not contain the configured audience, is
rejected by `AuthenticateRequest` with a wrapped verification error and
no UserInfo, regardless of signature validity or any other claim. -/
theorem authenticateRequest_rejects_expired_or_bad_audience
    (decode : String → Option TokenData) (now : Nat) (a : KeycloakAuthenticator)
    (r : HTTPRequest) (tok : String) (t : TokenData)
    (hgt : getToken r a.jwksURL = .ok tok)
    (hdec : decode tok = some t)
    (hbad : t.exp ≤ now ∨ t.aud.contains a.audience = false) :
    (AuthenticateRequest decode now a r).1 = none ∧
    ∃ e : VerifyError,
      (AuthenticateRequest decode now a r).2 = some (.errorParsingToken e) := by
  have hp : ∃ e, parseWithClaims decode a.jwks.keyfunc a.audience now tok = .error e := by
    simp only [parseWithClaims, hdec]
    cases hk : a.jwks.keyfunc t.keyID with
    | none => exact ⟨.unknownKey, rfl⟩
    | some k =>
      by_cases hs : t.sigKey ≠ k
      · exact ⟨.signatureInvalid, by simp [hs]⟩
      · rcases hbad with hexp | haud
        · exact ⟨.tokenExpired, by simp [hs, hexp]⟩
        · by_cases hexp : t.exp ≤ now
          · exact ⟨.tokenExpired, by simp [hs, hexp]⟩
          · exact ⟨.audienceMismatch, by
              have hnm : ¬ a.audience ∈ t.aud := by simpa using haud
              simp [hs, hexp, hnm]⟩
  obtain ⟨e, hp⟩ := hp
  exact ⟨by simp [AuthenticateRequest, hgt, hp],
    ⟨e, by simp [AuthenticateRequest, hgt, hp]⟩⟩

/-- Closed instance of C4: a token expired at `now = 10` with a valid
signature and matching audience is rejected with no UserInfo. -/
theorem authenticateRequest_rejects_expired_witness :
    (AuthenticateRequest (fun _ => some ⟨"kid", 7, 5, ["aud"], []⟩) 10
      (KeycloakAuthenticator.mk ⟨[("kid", 7)], none⟩ "https://jwks" "aud")
      ⟨[("Authorization", "Bearer x")], ""⟩).1 = none ∧
    ∃ e : VerifyError,
      (AuthenticateRequest (fun _ => some ⟨"kid", 7, 5, ["aud"], []⟩) 10
        (KeycloakAuthenticator.mk ⟨[("kid", 7)], none⟩ "https://jwks" "aud")
        ⟨[("Authorization", "Bearer x")], ""⟩).2 = some (.errorParsingToken e) :=
  authenticateRequest_rejects_expired_or_bad_audience
    (fun _ => some ⟨"kid", 7, 5, ["aud"], []⟩) 10
    (KeycloakAuthenticator.mk ⟨[("kid", 7)], none⟩ "https://jwks" "aud")
    ⟨[("Authorization", "Bearer x")], ""⟩ "x" ⟨"kid", 7, 5, ["aud"], []⟩
    (by rfl) (by rfl) (Or.inl (by decide))

/-- C10: when verification succeeds but none of the token's realm roles
appear in `StaticRoleMappings` (in particular when the list is empty),
`AuthenticateRequest` still succeeds and returns a UserInfo with an
empty role sequence, not an error. -/
theorem authenticateRequest_unmapped_roles_empty
    (decode : String → Option TokenData) (now : Nat) (a : KeycloakAuthenticator)
    (r : HTTPRequest) (tok : String) (jt : ParsedJWT)
    (hgt : getToken r a.jwksURL = .ok tok)
    (hp : parseWithClaims decode a.jwks.keyfunc a.audience now tok = .ok jt)
    (hroles : ∀ role ∈ jt.claims.realmRoles,
      List.lookup role StaticRoleMappings = none) :
    AuthenticateRequest decode now a r = (some { Roles := [] }, none) := by
  have hv := parseWithClaims_ok_valid decode a.jwks.keyfunc a.audience now tok jt hp
  have ht : TranslateToTornjakRoles jt.claims.realmRoles = [] := by
    rw [TranslateToTornjakRoles, translateLoop_eq]
    simpa [List.filterMap_eq_nil_iff] using hroles
  simp [AuthenticateRequest, hgt, hp, hv, ht]

/-- Closed instance of C10: a fully valid token whose only realm role is
unmapped yields a UserInfo with no roles. -/
theorem authenticateRequest_unmapped_roles_empty_witness :
    AuthenticateRequest (fun _ => some ⟨"kid1", 7, 100, ["tornjak"], ["unmapped"]⟩) 0
      (KeycloakAuthenticator.mk ⟨[("kid1", 7)], none⟩ "https://jwks" "tornjak")
      ⟨[("Authorization", "Bearer x")], ""⟩ = (some { Roles := [] }, none) :=
  authenticateRequest_unmapped_roles_empty
    (fun _ => some ⟨"kid1", 7, 100, ["tornjak"], ["unmapped"]⟩) 0
    (KeycloakAuthenticator.mk ⟨[("kid1", 7)], none⟩ "https://jwks" "tornjak")
    ⟨[("Authorization", "Bearer x")], ""⟩ "x"
    ⟨⟨"kid1", 7, 100, ["tornjak"], ["unmapped"]⟩, true⟩
    (by rfl) (by rfl) (by decide)

/-- C7: the recognized configuration options `refreshInterval`,
`rateLimitInterval`, and `refreshTimeout` default to one hour, five
minutes, and ten seconds; and in polling mode every key-set cache
`getJWKeyFunc` constructs carries exactly a one-hour refresh interval, a
five-minute refresh rate limit, and a ten-second refresh timeout. -/
theorem keyfunc_options_defaults
    (fetch parseJSON : String → Option (List (String × Nat)))
    (jwksInfo : String) (jwks : JWKS)
    (h : getJWKeyFunc fetch parseJSON true jwksInfo = .ok jwks) :
    jwks.options = some { refreshInterval := 3600, refreshRateLimit := 300,
                          refreshTimeout := 10, refreshUnknownKID := true } ∧
    (∀ b i aud, ({ useHTTPKeySource := b, issuerURL := i, audience := aud } :
        TornjakConfig).refreshInterval = 3600 ∧
      ({ useHTTPKeySource := b, issuerURL := i, audience := aud } :
        TornjakConfig).rateLimitInterval = 300 ∧
      ({ useHTTPKeySource := b, issuerURL := i, audience := aud } :
        TornjakConfig).refreshTimeout = 10) := by
  refine ⟨?_, fun b i aud => ⟨rfl, rfl, rfl⟩⟩
  simp only [getJWKeyFunc, keyfuncGet, if_true] at h
  cases hf : fetch jwksInfo with
  | none => rw [hf] at h; simp at h
  | some ks =>
    rw [hf] at h
    simp only [Except.ok.injEq] at h
    rw [← h]

/-- Closed instance of C7: a polling-mode cache built from a one-key
fetch carries the hard-coded options. -/
theorem keyfunc_options_defaults_witness :
    (JWKS.mk [("kid", 1)]
        (some { refreshInterval := 3600, refreshRateLimit := 300,
                refreshTimeout := 10, refreshUnknownKID := true })).options =
      some { refreshInterval := 3600, refreshRateLimit := 300,
             refreshTimeout := 10, refreshUnknownKID := true } ∧
    (∀ b i aud, ({ useHTTPKeySource := b, issuerURL := i, audience := aud } :
        TornjakConfig).refreshInterval = 3600 ∧
      ({ useHTTPKeySource := b, issuerURL := i, audience := aud } :
        TornjakConfig).rateLimitInterval = 300 ∧
      ({ useHTTPKeySource := b, issuerURL := i, audience := aud } :
        TornjakConfig).refreshTimeout = 10) :=
  keyfunc_options_defaults (fun _ => some [("kid", 1)]) (fun _ => none)
    "https://jwks" _ (by rfl)

/-- C8: `NewKeycloakAuthenticator` yields an authenticator exactly when
OIDC discovery and initial key-source construction both succeed; any
discovery failure, malformed static JSON document, or failed initial
fetch yields a setup error and no authenticator, and on success the
authenticator carries the constructed key set, the discovered JWKS URL,
and the configured audience. -/
theorem newKeycloakAuthenticator_setup
    (discover : String → Except String String)
    (fetch parseJSON : String → Option (List (String × Nat)))
    (httpjwks : Bool) (issuerURL audience : String) :
    ((NewKeycloakAuthenticator discover fetch parseJSON httpjwks issuerURL
        audience).1.isSome ↔
      (∃ u j, discover issuerURL = .ok u ∧
        getJWKeyFunc fetch parseJSON httpjwks u = .ok j)) ∧
    ((NewKeycloakAuthenticator discover fetch parseJSON httpjwks issuerURL
        audience).1.isSome ↔
      (NewKeycloakAuthenticator discover fetch parseJSON httpjwks issuerURL
        audience).2 = none) ∧
    (∀ u j, discover issuerURL = .ok u →
      getJWKeyFunc fetch parseJSON httpjwks u = .ok j →
      NewKeycloakAuthenticator discover fetch parseJSON httpjwks issuerURL
        audience = (some ⟨j, u, audience⟩, none)) := by
  refine ⟨?_, ?_, ?_⟩
  · cases hd : discover issuerURL with
    | error e => simp [NewKeycloakAuthenticator, hd]
    | ok u =>
      cases hg : getJWKeyFunc fetch parseJSON httpjwks u with
      | error e => simp [NewKeycloakAuthenticator, hd, hg]
      | ok j =>
        simp only [NewKeycloakAuthenticator, hd, hg, Option.isSome_some, true_iff]
        exact ⟨u, j, rfl, hg⟩
  · cases hd : discover issuerURL with
    | error e => simp [NewKeycloakAuthenticator, hd]
    | ok u =>
      cases hg : getJWKeyFunc fetch parseJSON httpjwks u with
      | error e => simp [NewKeycloakAuthenticator, hd, hg]
      | ok j => simp [NewKeycloakAuthenticator, hd, hg]
  · intro u j hd hg
    simp [NewKeycloakAuthenticator, hd, hg]

/-- Closed instance of C8: with discovery succeeding and the polling
fetch failing, no authenticator is constructed and an error is
returned. -/
theorem newKeycloakAuthenticator_setup_witness :
    ((NewKeycloakAuthenticator (fun _ => .ok "https://jwks") (fun _ => none)
        (fun _ => none) true "https://issuer" "aud").1.isSome ↔
      (∃ u j, (fun _ : String => (.ok "https://jwks" : Except String String))
          "https://issuer" = .ok u ∧
        getJWKeyFunc (fun _ => none) (fun _ => none) true u = .ok j)) ∧
    ((NewKeycloakAuthenticator (fun _ => .ok "https://jwks") (fun _ => none)
        (fun _ => none) true "https://issuer" "aud").1.isSome ↔
      (NewKeycloakAuthenticator (fun _ => .ok "https://jwks") (fun _ => none)
        (fun _ => none) true "https://issuer" "aud").2 = none) ∧
    (∀ u j, (fun _ : String => (.ok "https://jwks" : Except String String))
        "https://issuer" = .ok u →
      getJWKeyFunc (fun _ => none) (fun _ => none) true u = .ok j →
      NewKeycloakAuthenticator (fun _ => .ok "https://jwks") (fun _ => none)
        (fun _ => none) true "https://issuer" "aud" = (some ⟨j, u, "aud"⟩, none)) :=
  newKeycloakAuthenticator_setup (fun _ => .ok "https://jwks") (fun _ => none)
    (fun _ => none) true "https://issuer" "aud"

/-- Once the cache's last refresh attempt lies inside the window (at or
after `T`, with every remaining arrival before `T` plus the rate-limit
interval), no further lookup of a key absent from the cached set can
trigger a refresh: the state is unchanged and every lookup fails. -/
theorem runLookups_rateLimited (source : List (String × Nat))
    (T : Nat) (lookups : List (Nat × String)) :
    ∀ st : CacheState, T ≤ st.lastAttempt →
    (∀ p ∈ lookups, p.1 < T + st.rateLimit) →
    (∀ p ∈ lookups, List.lookup p.2 st.keys = none) →
    runLookups source st lookups =
      (st, 0, lookups.map (fun _ => .error ())) := by
  induction lookups with
  | nil => intro st _ _ _; rfl
  | cons p rest ih =>
    intro st hT hwin habs
    obtain ⟨t, kid⟩ := p
    have hmiss : List.lookup kid st.keys = none :=
      habs (t, kid) (List.mem_cons_self _ _)
    have hrl : ¬ (st.lastAttempt + st.rateLimit ≤ t) := by
      have := hwin (t, kid) (List.mem_cons_self _ _)
      simp only at this
      omega
    have htail := ih st hT
      (fun p hp => hwin p (List.mem_cons_of_mem _ hp))
      (fun p hp => habs p (List.mem_cons_of_mem _ hp))
    simp [runLookups, cacheLookup, hmiss, hrl, htail]

/-- C1: for every sequence of lookups of key IDs absent from both the
cached signing-key set and the Key Source document, all arriving inside
one rate-limit window (`[T, T + rateLimit)`), the cache issues at most
one refresh attempt against the Key Source, and every lookup fails with
`UnknownKeyError` — so arbitrarily many unknown key IDs cannot force
more than one refresh per window. -/
theorem cache_refresh_rate_limited (source : List (String × Nat))
    (T : Nat) (lookups : List (Nat × String)) (st : CacheState)
    (hwin : ∀ p ∈ lookups, T ≤ p.1 ∧ p.1 < T + st.rateLimit)
    (habs : ∀ p ∈ lookups, List.lookup p.2 st.keys = none ∧
      List.lookup p.2 source = none) :
    (runLookups source st lookups).2.1 ≤ 1 ∧
    (runLookups source st lookups).2.2 = lookups.map (fun _ => .error ()) := by
  induction lookups generalizing st with
  | nil => simp [runLookups]
  | cons p rest ih =>
    obtain ⟨t, kid⟩ := p
    have hmiss : List.lookup kid st.keys = none :=
      (habs (t, kid) (List.mem_cons_self _ _)).1
    have hsrc : List.lookup kid source = none :=
      (habs (t, kid) (List.mem_cons_self _ _)).2
    have hwin0 := hwin (t, kid) (List.mem_cons_self _ _)
    by_cases hrl : st.lastAttempt + st.rateLimit ≤ t
    · have htail := runLookups_rateLimited source T rest
        ⟨source, t, st.rateLimit⟩ (by simpa using hwin0.1)
        (fun p hp => by simpa using (hwin p (List.mem_cons_of_mem _ hp)).2)
        (fun p hp => by simpa using (habs p (List.mem_cons_of_mem _ hp)).2)
      simp [runLookups, cacheLookup, hmiss, hrl, hsrc, htail]
    · have htail := ih st
        (fun p hp => hwin p (List.mem_cons_of_mem _ hp))
        (fun p hp => habs p (List.mem_cons_of_mem _ hp))
      simp only [runLookups, cacheLookup, hmiss, hrl, if_false]
      simpa using htail

/-- Closed instance of C1: three unknown-key lookups inside one
five-minute (300 s) window issue at most one refresh and all fail. -/
theorem cache_refresh_rate_limited_witness :
    (runLookups [] ⟨[], 0, 300⟩ [(300, "a"), (301, "b"), (400, "a")]).2.1 ≤ 1 ∧
    (runLookups [] ⟨[], 0, 300⟩ [(300, "a"), (301, "b"), (400, "a")]).2.2 =
      [(300, "a"), (301, "b"), (400, "a")].map (fun _ => .error ()) :=
  cache_refresh_rate_limited [] 300 [(300, "a"), (301, "b"), (400, "a")]
    ⟨[], 0, 300⟩ (by decide) (by decide)
